import Mathlib

/-!
Shallow embedding of the HPPD comparison pipeline (`hppdauto.py`) and proofs
about its facility-name normalization, facility matching, template and report
extraction, agency-percentage computation, difference rows and outcome-bucket
classification.

Numbers are embedded as exact rationals (Python floats as reals), strings as
`String`, spreadsheet cells as an explicit `CellVal` type.  Behavior of Python
library routines that the program calls but does not define (`float(str)`,
`datetime.strptime`, `pandas.to_datetime`, `str()` of floats and datetimes,
`difflib.get_close_matches`) is abstracted into oracle parameters; everything
the repository itself defines is translated directly.
-/

/-! ## Python string primitives used by the source -/

/-- The whitespace class of Python's `str.strip` and of the regex class
`[\s]`: space, tab, newline, carriage return, vertical tab, form feed. -/
def isPyWs (c : Char) : Bool :=
  c = ' ' || c = '\t' || c = '\n' || c = '\r' || c = '\x0b' || c = '\x0c'

/-- ASCII lowercasing of one character, as Python's `str.lower` acts on the
ASCII range (the only range exercised by this program's names). -/
def lowerChar (c : Char) : Char :=
  if 65 ≤ c.toNat ∧ c.toNat ≤ 90 then Char.ofNat (c.toNat + 32) else c

/-- Python `s.lower()` (ASCII). -/
def pyLower (s : String) : String := String.mk (s.toList.map lowerChar)

/-- Drop leading and trailing Python-whitespace from a character list. -/
def stripChars (l : List Char) : List Char :=
  ((l.dropWhile isPyWs).reverse.dropWhile isPyWs).reverse

/-- Python `s.strip()`. -/
def pyStrip (s : String) : String := String.mk (stripChars s.toList)

/-- Python `s.startswith(p)`. -/
def pyStartsWith (s p : String) : Bool := p.toList.isPrefixOf s.toList

/-- Python `s.lower().endswith(p)` is built from this: `s.endswith(p)`. -/
def pyEndsWith (s p : String) : Bool := p.toList.isSuffixOf s.toList

/-- Python slicing `s[n:]` (by code point). -/
def pyDrop (s : String) (n : Nat) : String := String.mk (s.toList.drop n)

/-- Characters kept by the source's `re.sub(r"[^a-z0-9\s]", "", s)`:
lowercase ASCII letters, digits, and whitespace. -/
def isAllowedChar (c : Char) : Bool :=
  ('a' ≤ c && c ≤ 'z') || ('0' ≤ c && c ≤ '9') || isPyWs c

/-- The source's `re.sub(r"[^a-z0-9\s]", "", s)`. -/
def keepAlnumWs (s : String) : String := String.mk (s.toList.filter isAllowedChar)

/-- Maximal runs split at each whitespace character (empty runs included, so a
whitespace run of length n produces n-1 empty tokens plus boundary empties). -/
def wsTokens (l : List Char) : List (List Char) :=
  l.foldr
    (fun c acc =>
      if isPyWs c then [] :: acc
      else
        match acc with
        | [] => [[c]]
        | t :: ts => (c :: t) :: ts)
    []

/-- The source's `re.sub(r"\s+", " ", s).strip()`: collapse every whitespace
run to a single space and trim the ends. -/
def collapseWs (s : String) : String :=
  String.intercalate " " (((wsTokens s.toList).filter (fun t => !t.isEmpty)).map String.mk)

/-- Boolean contiguous-sublist test on character lists. -/
def hasSubstr (pat : List Char) : List Char → Bool
  | [] => pat.isEmpty
  | c :: cs => pat.isPrefixOf (c :: cs) || hasSubstr pat cs

/-- Python `pat in s` on strings. -/
def containsSub (s pat : String) : Bool := hasSubstr pat.toList s.toList

/-! ## Name Normalizer (`normalize_name`, `extract_core_from_report`) -/

/-- `normalize_name` from the source: falsy input gives `""`; otherwise
lowercase, drop every character outside `[a-z0-9\s]`, collapse whitespace,
trim. -/
def normalize_name (s : String) : String :=
  if s = "" then "" else collapseWs (keepAlnumWs (pyLower s))

/-- The static override table of `extract_core_from_report`. -/
def reportOverrides : List (String × String) :=
  [("dallastown", "inners creek"),
   ("lancaster", "abbeyville"),
   ("montgomeryville", "montgomery"),
   ("west reading", "lebanon"),
   ("sunbury", "sunbury")]

/-- Python `overrides.get(core, core)`. -/
def applyOverride (core : String) : String :=
  match reportOverrides.lookup core with
  | some v => v
  | none => core

/-- `extract_core_from_report` from the source: empty input gives `""`;
otherwise lowercase, strip the literal "total nursing wrkd - " head (21
characters) when present, strip, drop characters outside `[a-z0-9\s]`,
collapse whitespace, and apply the override table.  (The `lru_cache`
decoration is semantically transparent for a pure function.) -/
def extract_core_from_report (s : String) : String :=
  if s = "" then ""
  else
    applyOverride
      (collapseWs
        (keepAlnumWs
          (if pyStartsWith (pyLower s) "total nursing wrkd - " then
            pyStrip (pyDrop (pyLower s) 21)
          else
            pyStrip (pyLower s))))

/-! ## Cell values, worksheets and Python library oracles -/

/-- A calendar date `(year, month, day)` as carried by a Python
`datetime.date`. -/
abbrev PyDate := Nat × Nat × Nat

/-- The value a spreadsheet cell can hold as seen by the source: nothing,
a number, a string, or a datetime. -/
inductive CellVal where
  | noneV : CellVal
  | num : Rat → CellVal
  | strV : String → CellVal
  | dateV : PyDate → CellVal
deriving DecidableEq

/-- Python truthiness of a cell value: `None`, `0.0` and `""` are falsy. -/
def CellVal.truthy : CellVal → Bool
  | .noneV => false
  | .num q => q ≠ 0
  | .strV s => s ≠ ""
  | .dateV _ => true

/-- Oracles for the Python library routines the source calls on cell data:
`float(str)` parsing, `datetime.strptime(s, "%Y-%m-%d")`,
`pandas.to_datetime` on non-datetime cells, and `str()` rendering of floats
and datetimes.  `none` models a raised parsing exception. -/
structure PyOracle where
  pyFloat : String → Option Rat
  strptime : String → Option PyDate
  toDatetime : CellVal → Option PyDate
  reprFloat : Rat → String
  reprDate : PyDate → String

/-- Python `str(v)` of a cell value. -/
def pyStrCell (o : PyOracle) : CellVal → String
  | .noneV => "None"
  | .num q => o.reprFloat q
  | .strV s => s
  | .dateV d => o.reprDate d

/-- `safe_float_conversion` from the source: `None` or `""` give the default,
numbers pass through, strings go through `float()` with exceptions mapped to
the default, and a datetime raises `TypeError`, also giving the default. -/
def safe_float_conversion (o : PyOracle) (v : CellVal) (default : Rat) : Rat :=
  match v with
  | .noneV => default
  | .num q => q
  | .strV s => if s = "" then default else (o.pyFloat s).getD default
  | .dateV _ => default

/-- An xlrd worksheet: a rectangular grid of cell values. -/
structure XlsSheet where
  nrows : Nat
  ncols : Nat
  cell : Nat → Nat → CellVal

/-- `ws.cell_value(r, c)`, with the `IndexError` raised outside the grid
modelled as `none`. -/
def cellAt (ws : XlsSheet) (r c : Nat) : Option CellVal :=
  if r < ws.nrows ∧ c < ws.ncols then some (ws.cell r c) else none

/-! ## Report hours extraction (`extract_hours_by_dept_code` and the
fixed-coordinate fallback of `process_report_file`) -/

/-- The running `(rn_hours, lpn_hours, cna_hours, total_hours)` of the
department-code scan; the source returns them as a 4-tuple in this order. -/
structure HoursState where
  rn : Rat
  lpn : Rat
  cna : Rat
  total : Rat
deriving DecidableEq

/-- The department-code assignments of one scanned row: `3210` sets RN hours,
`3215` LPN hours, `3225` CNA hours — plain assignment, not accumulation. -/
def applyCode (o : PyOracle) (c hc : CellVal) (st : HoursState) : HoursState :=
  if pyStrip (pyStrCell o c) = "3210" then { st with rn := safe_float_conversion o hc 0 }
  else if pyStrip (pyStrCell o c) = "3215" then { st with lpn := safe_float_conversion o hc 0 }
  else if pyStrip (pyStrCell o c) = "3225" then { st with cna := safe_float_conversion o hc 0 }
  else st

/-- The grand-total recognition of one scanned row: a label containing
"total hours worked" or "grand total" overwrites the total hours. -/
def applyTotal (o : PyOracle) (c hc : CellVal) (st : HoursState) : HoursState :=
  if containsSub (pyLower (pyStrCell o c)) "total hours worked"
      || containsSub (pyLower (pyStrCell o c)) "grand total" then
    { st with total := safe_float_conversion o hc 0 }
  else st

/-- One iteration of the scan loop in `extract_hours_by_dept_code`: read the
code cell in column C (a raised `IndexError` or a falsy cell skips the row),
read the hours cell in column H (a raised `IndexError` skips the row), then
apply the department-code assignment and the grand-total recognition. -/
def scanRow (o : PyOracle) (ws : XlsSheet) (st : HoursState) (row : Nat) : HoursState :=
  match cellAt ws row 2 with
  | none => st
  | some c =>
    if c.truthy then
      match cellAt ws row 7 with
      | none => st
      | some hc => applyTotal o c hc (applyCode o c hc st)
    else st

/-- `extract_hours_by_dept_code` from the source: scan rows 10..nrows
(0-based indices 9..nrows-1) of Sheet3, then, if no total was recorded,
replace the total with the sum of the three scanned role hours. -/
def extract_hours_by_dept_code (o : PyOracle) (ws : XlsSheet) : HoursState :=
  let st := (List.range' 9 (ws.nrows - 9)).foldl (scanRow o ws) ⟨0, 0, 0, 0⟩
  if st.total = 0 then { st with total := st.rn + st.lpn + st.cna } else st

/-- The fixed-coordinate ("old method") reads of `process_report_file`, rows
11-14 of column H (0-based (10..13, 7)): `(total, cna, rn, lpn)`.  Any raised
`IndexError` inside the inner `try` zeroes all four values. -/
def old_method_hours (o : PyOracle) (ws : XlsSheet) : Rat × Rat × Rat × Rat :=
  match cellAt ws 13 7, cellAt ws 12 7, cellAt ws 10 7, cellAt ws 11 7 with
  | some a, some c, some r, some l =>
    (safe_float_conversion o a 0, safe_float_conversion o c 0,
     safe_float_conversion o r 0, safe_float_conversion o l 0)
  | _, _, _, _ => (0, 0, 0, 0)

/-- Step 6 of `process_report_file`: run the department-code scan; when the
scanned role hours sum to a strictly positive value use the scanned values
`(total, cna, rn, lpn)`, otherwise fall back to the fixed-coordinate reads. -/
def select_report_hours (o : PyOracle) (ws : XlsSheet) : Rat × Rat × Rat × Rat :=
  let scanned := extract_hours_by_dept_code o ws
  if scanned.rn + scanned.lpn + scanned.cna > 0 then
    (scanned.total, scanned.cna, scanned.rn, scanned.lpn)
  else old_method_hours o ws

/-! ## Agency percentages (`compute_agency_percentages`) -/

/-- Python's `round(x, 2)`: round to two decimal places, ties to even
(the float value modelled as an exact rational). -/
def roundHalfEven (x : Rat) : Int :=
  if x - Rat.floor x < 1/2 then Rat.floor x
  else if 1/2 < x - Rat.floor x then Rat.floor x + 1
  else if Rat.floor x % 2 = 0 then Rat.floor x else Rat.floor x + 1

/-- `round(x, 2)` as the source applies it to its percentage and HPPD
figures. -/
def pyRound2 (x : Rat) : Rat := (roundHalfEven (x * 100) : Rat) / 100

/-- The agency-hours totals extracted from Sheet2
(`extract_agency_cna_rnlpn_from_sheet2`). -/
structure AgencyData where
  agency_cna_hours : Rat
  agency_rnlpn_hours : Rat
  agency_total_hours : Rat

/-- The record returned by `compute_agency_percentages`. -/
structure AgencyPcts where
  actual_agency_cna_pct : Rat
  actual_agency_nurse_pct : Rat
  actual_agency_total_pct : Rat
  actual_cna_hours : Rat
  actual_rn_hours : Rat
  actual_lpn_hours : Rat

/-- `compute_agency_percentages` from the source: each percentage is agency
hours over the corresponding actual hours times 100 when those actual hours
are strictly positive, else 0.0; results rounded to two decimals. -/
def compute_agency_percentages (ad : AgencyData)
    (actual_cna_hours actual_rn_hours actual_lpn_hours : Rat) : AgencyPcts :=
  { actual_agency_cna_pct :=
      pyRound2 (if actual_cna_hours > 0 then ad.agency_cna_hours / actual_cna_hours * 100 else 0)
    actual_agency_nurse_pct :=
      pyRound2 (if actual_rn_hours + actual_lpn_hours > 0 then
        ad.agency_rnlpn_hours / (actual_rn_hours + actual_lpn_hours) * 100 else 0)
    actual_agency_total_pct :=
      pyRound2 (if actual_cna_hours + (actual_rn_hours + actual_lpn_hours) > 0 then
        ad.agency_total_hours / (actual_cna_hours + (actual_rn_hours + actual_lpn_hours)) * 100 else 0)
    actual_cna_hours := actual_cna_hours
    actual_rn_hours := actual_rn_hours
    actual_lpn_hours := actual_lpn_hours }

/-! ## Template extraction (`process_template_file`) -/

/-- The fixed cells `process_template_file` batch-reads from the day sheet. -/
structure TemplateCells where
  d3 : CellVal
  e62 : CellVal
  b11 : CellVal
  e27 : CellVal
  g58 : CellVal
  e58 : CellVal
  f58 : CellVal
  l37 : CellVal
  l34 : CellVal
  o34 : CellVal

/-- The template entry dictionary built by `process_template_file`. -/
structure TemplateEntry where
  facility : String
  cleaned_name : String
  date : PyDate
  note : String
  census : Rat
  proj_total : Rat
  proj_cna : Rat
  proj_nurse : Rat
  proj_agency_total : Rat
  proj_agency_cna : Rat
  proj_agency_nurse : Rat
deriving DecidableEq

/-- `is_valid_file` from the source: Mac OS hidden files (name starting with
"._") are invalid, otherwise the lowercased name must end in the extension. -/
def is_valid_file (filename extension : String) : Bool :=
  if pyStartsWith filename "._" then false
  else pyEndsWith (pyLower filename) extension

/-- The facility-name remappings applied to the normalized template facility
name (the "sunbury skilled nursing and rehabilitation" family). -/
def remapCleanedFacility (cleaned : String) : String :=
  if containsSub cleaned "sunbury skilled nursing and rehabilitation" then "sunbury"
  else if containsSub cleaned "lebanon skilled nursing and rehabilitation" then "lebanon"
  else if containsSub cleaned "chambersburg skilled nursing and rehabilitation" then "chambersburg"
  else if containsSub cleaned "pottstown skilled nursing and rehabilitation" then "pottstown"
  else cleaned

/-- The date of the source's `B11` handling: a datetime cell contributes its
date directly, anything else goes through `pandas.to_datetime` (a raised
parse error modelled as `none`). -/
def parseDateCell (o : PyOracle) : CellVal → Option PyDate
  | .dateV d => some d
  | v => o.toDatetime v

/-- `process_template_file` from the source, given the workbook content of a
successfully opened file: the file-name gate, the day-of-month sheet lookup,
the facility-name, date and census validations, and the construction of the
template entry.  Returns `(entry?, skip?)` exactly as the source does. -/
def process_template_file (o : PyOracle) (filename : String) (sheetnames : List String)
    (cells : TemplateCells) (target_date : String) :
    Option TemplateEntry × Option (String × String) :=
  if pyStartsWith filename "._" then (none, some (filename, "Mac OS hidden file, skipped"))
  else if !is_valid_file filename ".xlsx" then (none, some (filename, "Not .xlsx, skipped"))
  else
    match o.strptime target_date with
    | none => (none, some (filename, "Data parsing error"))
    | some td =>
      if toString td.2.2 ∉ sheetnames then
        (none, some (filename, "No sheet named " ++ toString td.2.2))
      else if !cells.d3.truthy then (none, some (filename, "Missing facility name in D3"))
      else if !cells.b11.truthy then (none, some (filename, "Missing date in B11"))
      else
        match parseDateCell o cells.b11 with
        | none => (none, some (filename, "Invalid date format in B11"))
        | some sheet_date =>
          if target_date ≠ "" ∧ sheet_date ≠ td then
            (none, some (filename, "Date mismatch"))
          else if safe_float_conversion o cells.e27 0 ≤ 0 then
            (none, some (filename, "Invalid census value"))
          else
            (some
              { facility := pyStrCell o cells.d3
                cleaned_name := remapCleanedFacility (normalize_name (pyStrCell o cells.d3))
                date := sheet_date
                note := if cells.e62.truthy then pyStrCell o cells.e62 else ""
                census := safe_float_conversion o cells.e27 0
                proj_total :=
                  safe_float_conversion o cells.g58 0 / safe_float_conversion o cells.e27 0 +
                    (safe_float_conversion o cells.e58 0 + safe_float_conversion o cells.f58 0) /
                      safe_float_conversion o cells.e27 0
                proj_cna := safe_float_conversion o cells.g58 0 / safe_float_conversion o cells.e27 0
                proj_nurse :=
                  (safe_float_conversion o cells.e58 0 + safe_float_conversion o cells.f58 0) /
                    safe_float_conversion o cells.e27 0
                proj_agency_total := safe_float_conversion o cells.l37 0 * 100
                proj_agency_cna := safe_float_conversion o cells.o34 0 * 100
                proj_agency_nurse := safe_float_conversion o cells.l34 0 * 100 },
             none)

/-! ## Facility matcher (`match_report_to_template`) -/

/-- Lookup in the template name map (a Python dict carried as an association
list with unique keys; first binding wins). -/
def dictGet (m : List (String × String)) (k : String) : Option String := m.lookup k

/-- `list(template_name_map.keys())`. -/
def dictKeys (m : List (String × String)) : List String := m.map Prod.fst

/-- `match_report_to_template` from the source.  `fuzzy core keys cutoff`
abstracts `difflib.get_close_matches(core, keys, n=1, cutoff)` returning its
single best candidate; the source's default cutoff is 0.6 and its hard-coded
fallback cutoff is 0.3.  Order: exact dictionary lookup of the extracted core
name, fuzzy at `cutoff`, fuzzy at 0.3, then no match. -/
def match_report_to_template (fuzzy : String → List String → Rat → Option String)
    (report_name : String) (m : List (String × String)) (cutoff : Rat) : Option String :=
  match dictGet m (extract_core_from_report report_name) with
  | some v => some v
  | none =>
    match fuzzy (extract_core_from_report report_name) (dictKeys m) cutoff with
    | some k => dictGet m k
    | none =>
      match fuzzy (extract_core_from_report report_name) (dictKeys m) (3/10) with
      | some k => dictGet m k
      | none => none

/-! ## Difference rows (phase 5 of `run_hppd_comparison_for_date`) -/

/-- The output column headers of the comparison sheet. -/
def column_headers : List String :=
  ["Facility", "Type", "Total HPPD", "CNA HPPD", "RN+LPN HPPD",
   "CNA Agency %", "RN+LPN Agency %", "Total Agency %", "Notes", "Date"]

/-- Python `isinstance(v, (int, float))` on a cell value. -/
def isNumericVal : CellVal → Bool
  | .num _ => true
  | _ => false

/-- The Difference row built from a Projected row and an Actual row (rows as
maps from column name to value; a key the dict never sets reads as `None`):
`Type` is "Difference", `Facility` is blanked, `Date` is copied from the
Projected row, and every other header column is `round(proj - act, 2)` when
both sides are numeric and `None` otherwise. -/
def difference_row (proj act : String → CellVal) : String → CellVal := fun col =>
  if col = "Type" then .strV "Difference"
  else if col = "Facility" then .strV ""
  else if col = "Date" then proj "Date"
  else if col ∈ column_headers then
    match proj col, act col with
    | .num p, .num a => .num (pyRound2 (p - a))
    | _, _ => .noneV
  else .noneV

/-! ## Outcome buckets (phase 5 categorization) -/

/-- The Actual-row metrics the categorization reads. -/
structure ActualVals where
  totalHppd : Rat
  cnaHppd : Rat
  rnLpnHppd : Rat
deriving DecidableEq

/-- A result key: `(facility, report_date)`. -/
abbrev ResKey := String × PyDate

/-- The `if` condition of group 1: good HPPD and good split. -/
def bucket1Cond (h c r : Rat) : Prop :=
  3 ≤ h ∧ h ≤ 33/10 ∧ 2 ≤ c ∧ c ≤ 103/50 ∧ r ≤ 6/5

instance (h c r : Rat) : Decidable (bucket1Cond h c r) := by
  unfold bucket1Cond; infer_instance

/-- The branch condition under which a key lands in group 2: the `elif`
guard (good HPPD, bad split) with the negation of the group-1 condition that
Python's `elif` imposes. -/
def bucket2Cond (h c r : Rat) : Prop :=
  ¬ bucket1Cond h c r ∧ (3 ≤ h ∧ h ≤ 33/10 ∧ (c < 2 ∨ 6/5 < r))

instance (h c r : Rat) : Decidable (bucket2Cond h c r) := by
  unfold bucket2Cond; infer_instance

/-- The branch condition under which a key lands in group 3: the second
`elif` guard (bad HPPD, bad split) with the negations the `elif` chain
imposes. -/
def bucket3Cond (h c r : Rat) : Prop :=
  ¬ bucket1Cond h c r ∧ ¬ (3 ≤ h ∧ h ≤ 33/10 ∧ (c < 2 ∨ 6/5 < r)) ∧
    ((h < 3 ∨ 33/10 < h) ∧ (c < 2 ∨ 6/5 < r))

instance (h c r : Rat) : Decidable (bucket3Cond h c r) := by
  unfold bucket3Cond; infer_instance

/-- The three bucket key lists (`group1`, `group2`, `group3`). -/
structure BucketGroups where
  group1 : List ResKey
  group2 : List ResKey
  group3 : List ResKey
deriving DecidableEq

/-- One iteration of the categorization loop: the `if`/`elif`/`elif` chain on
the Actual row's Total HPPD, CNA HPPD and RN+LPN HPPD appends the key to at
most one group list. -/
def categorize_step (acc : BucketGroups) (p : ResKey × ActualVals) : BucketGroups :=
  if bucket1Cond p.2.totalHppd p.2.cnaHppd p.2.rnLpnHppd then
    { acc with group1 := acc.group1 ++ [p.1] }
  else if 3 ≤ p.2.totalHppd ∧ p.2.totalHppd ≤ 33/10 ∧ (p.2.cnaHppd < 2 ∨ 6/5 < p.2.rnLpnHppd) then
    { acc with group2 := acc.group2 ++ [p.1] }
  else if (p.2.totalHppd < 3 ∨ 33/10 < p.2.totalHppd) ∧ (p.2.cnaHppd < 2 ∨ 6/5 < p.2.rnLpnHppd) then
    { acc with group3 := acc.group3 ++ [p.1] }
  else acc

/-- The phase-5 categorization of the results map (keys in iteration order,
each with its Actual row's metrics). -/
def categorize_results (rs : List (ResKey × ActualVals)) : BucketGroups :=
  rs.foldl categorize_step ⟨[], [], []⟩

/-! ## Row predicates for the department-code scan -/

/-- Whether a scanned row assigns the role hours of department `code`: its
column-C cell is readable and truthy, its column-H cell is readable, and the
stripped string of the code cell equals `code`. -/
def rowSetsCode (o : PyOracle) (ws : XlsSheet) (row : Nat) (code : String) : Bool :=
  match cellAt ws row 2 with
  | none => false
  | some c => c.truthy && (cellAt ws row 7).isSome && (pyStrip (pyStrCell o c) == code)

/-- The hours value column H of a row contributes (0 when unreadable). -/
def rowHours (o : PyOracle) (ws : XlsSheet) (row : Nat) : Rat :=
  match cellAt ws row 7 with
  | some hc => safe_float_conversion o hc 0
  | none => 0

/-- Whether a scanned row is recognized as a grand-total row: readable and
truthy code cell, readable hours cell, and a lowercased label containing
"total hours worked" or "grand total". -/
def rowIsTotal (o : PyOracle) (ws : XlsSheet) (row : Nat) : Bool :=
  match cellAt ws row 2 with
  | none => false
  | some c =>
    c.truthy && (cellAt ws row 7).isSome &&
      (containsSub (pyLower (pyStrCell o c)) "total hours worked"
        || containsSub (pyLower (pyStrCell o c)) "grand total")

/-! ## Concrete instances used by witnesses and counterexamples -/

/-- A concrete Python-library oracle: no string parses as a float or a date,
`strptime` recognizes exactly "2024-01-05". -/
def oracle0 : PyOracle :=
  { pyFloat := fun _ => none
    strptime := fun s => if s = "2024-01-05" then some (2024, 1, 5) else none
    toDatetime := fun _ => none
    reprFloat := fun _ => "flt"
    reprDate := fun _ => "dt" }

/-- A 10-row report hours sheet whose only scanned row carries department
code 3225 with -1 hours, so the scanned role hours sum to -1. -/
def ws6 : XlsSheet :=
  { nrows := 10
    ncols := 8
    cell := fun r c =>
      if r = 9 ∧ c = 2 then .strV "3225"
      else if r = 9 ∧ c = 7 then .num (-1)
      else .noneV }

/-- A 13-row report hours sheet with two department-3210 rows (5 then 7
hours), one 3215 row (3 hours), one 3225 row (4 hours) and no total row. -/
def ws9 : XlsSheet :=
  { nrows := 13
    ncols := 8
    cell := fun r c =>
      if c = 2 then
        (if r = 9 then .strV "3210" else if r = 10 then .strV "3210"
         else if r = 11 then .strV "3215" else if r = 12 then .strV "3225" else .noneV)
      else if c = 7 then
        (if r = 9 then .num 5 else if r = 10 then .num 7
         else if r = 11 then .num 3 else if r = 12 then .num 4 else .noneV)
      else .noneV }

/-- Valid template cell contents: facility "Oak Hill", date 2024-01-05,
census 100, CNA hours 210, nurse hours 100 and 5. -/
def cells8 : TemplateCells :=
  { d3 := .strV "Oak Hill"
    e62 := .noneV
    b11 := .dateV (2024, 1, 5)
    e27 := .num 100
    g58 := .num 210
    e58 := .num 100
    f58 := .num 5
    l37 := .noneV
    l34 := .noneV
    o34 := .noneV }

/-- The same template cells with a zero census. -/
def cells5 : TemplateCells := { cells8 with e27 := .num 0 }

/-! ## Shared helper lemmas -/

theorem isPrefixOf_append_self (l r : List Char) : l.isPrefixOf (l ++ r) = true := by
  rw [List.isPrefixOf_iff_prefix]
  exact List.prefix_append l r

theorem append_lower_toList (p s : String) :
    (pyLower (p ++ s)).toList = (pyLower p).toList ++ (pyLower s).toList := by
  simp only [pyLower]
  show ((p.toList ++ s.toList).map lowerChar) = _
  rw [List.map_append]
  rfl

/-! ## Claim C1 -/

/-- Claim C1 counterexample: `extract_core_from_report` does not strip a
site-code suffix token, so on "Total Nursing Wrkd - Bright Oaks PA12_3" it
returns "bright oaks pa123" (the underscore removed, digits kept) and not the
normalized form of "Bright Oaks" that the claim asserts. -/
theorem claim_C1_counterexample :
    extract_core_from_report "Total Nursing Wrkd - Bright Oaks PA12_3" = "bright oaks pa123" ∧
    extract_core_from_report "Total Nursing Wrkd - Bright Oaks PA12_3" ≠ normalize_name "Bright Oaks" := by
  decide

/-- Claim C1 (amended): `extract_core_from_report` strips the literal prefix
"Total Nursing Wrkd - " when present, normalizes (lowercase, drop characters
outside `[a-z0-9\s]`, collapse whitespace, trim), and applies the static
override table; no site-code suffix is stripped.  Part 1: prepending the
literal prefix to a name that does not itself carry the prefix does not
change the extracted core.  Part 2: the claim's example input yields
"bright oaks pa123".  Part 3: that value is the normalized form of the full
remainder "Bright Oaks PA12_3" (suffix token included).  Part 4: the
override table maps the normalized core "lancaster" to "abbeyville". -/
theorem claim_C1_extract_core :
    (∀ s : String, s ≠ "" →
      pyStartsWith (pyLower s) "total nursing wrkd - " = false →
      extract_core_from_report ("Total Nursing Wrkd - " ++ s) = extract_core_from_report s) ∧
    extract_core_from_report "Total Nursing Wrkd - Bright Oaks PA12_3" = "bright oaks pa123" ∧
    normalize_name "Bright Oaks PA12_3" = "bright oaks pa123" ∧
    extract_core_from_report "Total Nursing Wrkd - Lancaster" = "abbeyville" := by
  refine ⟨?_, by decide, by decide, by decide⟩
  intro s hs hpre
  have hne : ("Total Nursing Wrkd - " ++ s) ≠ "" := by
    intro h
    have h2 : ("Total Nursing Wrkd - " ++ s).toList = "".toList := congrArg String.toList h
    have h3 : "Total Nursing Wrkd - ".toList ++ s.toList = [] := h2
    exact absurd (List.append_eq_nil.mp h3).1 (by decide)
  have hlowlist : (pyLower ("Total Nursing Wrkd - " ++ s)).toList
      = "total nursing wrkd - ".toList ++ (pyLower s).toList := by
    rw [append_lower_toList]
    rw [show (pyLower "Total Nursing Wrkd - ").toList = "total nursing wrkd - ".toList from by decide]
  have hstart : pyStartsWith (pyLower ("Total Nursing Wrkd - " ++ s)) "total nursing wrkd - " = true := by
    simp only [pyStartsWith, hlowlist]
    exact isPrefixOf_append_self _ _
  have hdrop : pyDrop (pyLower ("Total Nursing Wrkd - " ++ s)) 21 = pyLower s := by
    simp only [pyDrop, hlowlist]
    have hlen : ("total nursing wrkd - ".toList).length = 21 := by decide
    rw [← hlen, List.drop_left]
    exact congrArg String.mk rfl
  rw [extract_core_from_report, extract_core_from_report, if_neg hne, if_neg hs,
    if_pos hstart, if_neg (by simp [hpre]), hdrop]

/-! ## Bucket lemmas (claims C2 and C10) -/

theorem categorize_step_group1 (acc : BucketGroups) (p : ResKey × ActualVals) :
    (categorize_step acc p).group1 =
      if bucket1Cond p.2.totalHppd p.2.cnaHppd p.2.rnLpnHppd then acc.group1 ++ [p.1]
      else acc.group1 := by
  by_cases h1 : bucket1Cond p.2.totalHppd p.2.cnaHppd p.2.rnLpnHppd
  · simp only [categorize_step, if_pos h1]
  · simp only [categorize_step, if_neg h1]
    split
    · rfl
    · split
      · rfl
      · rfl

theorem categorize_step_group2 (acc : BucketGroups) (p : ResKey × ActualVals) :
    (categorize_step acc p).group2 =
      if bucket2Cond p.2.totalHppd p.2.cnaHppd p.2.rnLpnHppd then acc.group2 ++ [p.1]
      else acc.group2 := by
  by_cases h1 : bucket1Cond p.2.totalHppd p.2.cnaHppd p.2.rnLpnHppd
  · rw [if_neg (fun hx : bucket2Cond _ _ _ => hx.1 h1)]
    simp only [categorize_step, if_pos h1]
  · by_cases h2 : 3 ≤ p.2.totalHppd ∧ p.2.totalHppd ≤ 33/10 ∧ (p.2.cnaHppd < 2 ∨ 6/5 < p.2.rnLpnHppd)
    · rw [if_pos ⟨h1, h2⟩]
      simp only [categorize_step, if_neg h1, if_pos h2]
    · rw [if_neg (fun hx : bucket2Cond _ _ _ => h2 hx.2)]
      simp only [categorize_step, if_neg h1, if_neg h2]
      split
      · rfl
      · rfl

theorem categorize_step_group3 (acc : BucketGroups) (p : ResKey × ActualVals) :
    (categorize_step acc p).group3 =
      if bucket3Cond p.2.totalHppd p.2.cnaHppd p.2.rnLpnHppd then acc.group3 ++ [p.1]
      else acc.group3 := by
  by_cases h1 : bucket1Cond p.2.totalHppd p.2.cnaHppd p.2.rnLpnHppd
  · rw [if_neg (fun hx : bucket3Cond _ _ _ => hx.1 h1)]
    simp only [categorize_step, if_pos h1]
  · by_cases h2 : 3 ≤ p.2.totalHppd ∧ p.2.totalHppd ≤ 33/10 ∧ (p.2.cnaHppd < 2 ∨ 6/5 < p.2.rnLpnHppd)
    · rw [if_neg (fun hx : bucket3Cond _ _ _ => hx.2.1 h2)]
      simp only [categorize_step, if_neg h1, if_pos h2]
    · by_cases h3 : (p.2.totalHppd < 3 ∨ 33/10 < p.2.totalHppd) ∧ (p.2.cnaHppd < 2 ∨ 6/5 < p.2.rnLpnHppd)
      · rw [if_pos ⟨h1, h2, h3⟩]
        simp only [categorize_step, if_neg h1, if_neg h2, if_pos h3]
      · rw [if_neg (fun hx : bucket3Cond _ _ _ => h3 hx.2.2)]
        simp only [categorize_step, if_neg h1, if_neg h2, if_neg h3]

theorem mem_group1_foldl (rs : List (ResKey × ActualVals)) (acc : BucketGroups) (k : ResKey) :
    k ∈ (rs.foldl categorize_step acc).group1 ↔
      k ∈ acc.group1 ∨ ∃ v, (k, v) ∈ rs ∧ bucket1Cond v.totalHppd v.cnaHppd v.rnLpnHppd := by
  induction rs generalizing acc with
  | nil => simp
  | cons p rs ih =>
    rw [List.foldl_cons, ih, categorize_step_group1]
    by_cases h1 : bucket1Cond p.2.totalHppd p.2.cnaHppd p.2.rnLpnHppd
    · rw [if_pos h1]
      simp only [List.mem_append, List.mem_cons, List.not_mem_nil, or_false]
      constructor
      · rintro ((hk | hk) | ⟨v, hv, hb⟩)
        · exact Or.inl hk
        · exact Or.inr ⟨p.2, Or.inl (by rw [hk]), h1⟩
        · exact Or.inr ⟨v, Or.inr hv, hb⟩
      · rintro (hk | ⟨v, hv | hv, hb⟩)
        · exact Or.inl (Or.inl hk)
        · exact Or.inl (Or.inr (congrArg Prod.fst hv))
        · exact Or.inr ⟨v, hv, hb⟩
    · rw [if_neg h1]
      simp only [List.mem_cons]
      constructor
      · rintro (hk | ⟨v, hv, hb⟩)
        · exact Or.inl hk
        · exact Or.inr ⟨v, Or.inr hv, hb⟩
      · rintro (hk | ⟨v, hv | hv, hb⟩)
        · exact Or.inl hk
        · have hv2 : v = p.2 := congrArg Prod.snd hv
          rw [hv2] at hb
          exact absurd hb h1
        · exact Or.inr ⟨v, hv, hb⟩

theorem mem_group2_foldl (rs : List (ResKey × ActualVals)) (acc : BucketGroups) (k : ResKey) :
    k ∈ (rs.foldl categorize_step acc).group2 ↔
      k ∈ acc.group2 ∨ ∃ v, (k, v) ∈ rs ∧ bucket2Cond v.totalHppd v.cnaHppd v.rnLpnHppd := by
  induction rs generalizing acc with
  | nil => simp
  | cons p rs ih =>
    rw [List.foldl_cons, ih, categorize_step_group2]
    by_cases h1 : bucket2Cond p.2.totalHppd p.2.cnaHppd p.2.rnLpnHppd
    · rw [if_pos h1]
      simp only [List.mem_append, List.mem_cons, List.not_mem_nil, or_false]
      constructor
      · rintro ((hk | hk) | ⟨v, hv, hb⟩)
        · exact Or.inl hk
        · exact Or.inr ⟨p.2, Or.inl (by rw [hk]), h1⟩
        · exact Or.inr ⟨v, Or.inr hv, hb⟩
      · rintro (hk | ⟨v, hv | hv, hb⟩)
        · exact Or.inl (Or.inl hk)
        · exact Or.inl (Or.inr (congrArg Prod.fst hv))
        · exact Or.inr ⟨v, hv, hb⟩
    · rw [if_neg h1]
      simp only [List.mem_cons]
      constructor
      · rintro (hk | ⟨v, hv, hb⟩)
        · exact Or.inl hk
        · exact Or.inr ⟨v, Or.inr hv, hb⟩
      · rintro (hk | ⟨v, hv | hv, hb⟩)
        · exact Or.inl hk
        · have hv2 : v = p.2 := congrArg Prod.snd hv
          rw [hv2] at hb
          exact absurd hb h1
        · exact Or.inr ⟨v, hv, hb⟩

theorem mem_group3_foldl (rs : List (ResKey × ActualVals)) (acc : BucketGroups) (k : ResKey) :
    k ∈ (rs.foldl categorize_step acc).group3 ↔
      k ∈ acc.group3 ∨ ∃ v, (k, v) ∈ rs ∧ bucket3Cond v.totalHppd v.cnaHppd v.rnLpnHppd := by
  induction rs generalizing acc with
  | nil => simp
  | cons p rs ih =>
    rw [List.foldl_cons, ih, categorize_step_group3]
    by_cases h1 : bucket3Cond p.2.totalHppd p.2.cnaHppd p.2.rnLpnHppd
    · rw [if_pos h1]
      simp only [List.mem_append, List.mem_cons, List.not_mem_nil, or_false]
      constructor
      · rintro ((hk | hk) | ⟨v, hv, hb⟩)
        · exact Or.inl hk
        · exact Or.inr ⟨p.2, Or.inl (by rw [hk]), h1⟩
        · exact Or.inr ⟨v, Or.inr hv, hb⟩
      · rintro (hk | ⟨v, hv | hv, hb⟩)
        · exact Or.inl (Or.inl hk)
        · exact Or.inl (Or.inr (congrArg Prod.fst hv))
        · exact Or.inr ⟨v, hv, hb⟩
    · rw [if_neg h1]
      simp only [List.mem_cons]
      constructor
      · rintro (hk | ⟨v, hv, hb⟩)
        · exact Or.inl hk
        · exact Or.inr ⟨v, Or.inr hv, hb⟩
      · rintro (hk | ⟨v, hv | hv, hb⟩)
        · exact Or.inl hk
        · have hv2 : v = p.2 := congrArg Prod.snd hv
          rw [hv2] at hb
          exact absurd hb h1
        · exact Or.inr ⟨v, hv, hb⟩

theorem keys_nodup_mem_unique {rs : List (ResKey × ActualVals)}
    (hnd : (rs.map Prod.fst).Nodup) {k : ResKey} {v w : ActualVals}
    (hv : (k, v) ∈ rs) (hw : (k, w) ∈ rs) : v = w := by
  induction rs with
  | nil => cases hv
  | cons p rs ih =>
    rw [List.map_cons, List.nodup_cons] at hnd
    rcases List.mem_cons.mp hv with h1 | h1 <;> rcases List.mem_cons.mp hw with h2 | h2
    · exact congrArg Prod.snd (h1.trans h2.symm)
    · exfalso
      apply hnd.1
      rw [show p.1 = k from (congrArg Prod.fst h1).symm]
      exact List.mem_map_of_mem Prod.fst h2
    · exfalso
      apply hnd.1
      rw [show p.1 = k from (congrArg Prod.fst h2).symm]
      exact List.mem_map_of_mem Prod.fst h1
    · exact ih hnd.2 h1 h2

theorem bucket2Cond_iff (h c r : Rat) :
    bucket2Cond h c r ↔ 3 ≤ h ∧ h ≤ 33/10 ∧ (c < 2 ∨ 6/5 < r) := by
  unfold bucket2Cond bucket1Cond
  constructor
  · exact fun hx => hx.2
  · intro hx
    refine ⟨?_, hx⟩
    rintro ⟨h3, h33, hc2, hc206, hr⟩
    rcases hx.2.2 with hlt | hgt
    · linarith
    · linarith

theorem bucket3Cond_iff (h c r : Rat) :
    bucket3Cond h c r ↔ (h < 3 ∨ 33/10 < h) ∧ (c < 2 ∨ 6/5 < r) := by
  unfold bucket3Cond bucket1Cond
  constructor
  · exact fun hx => hx.2.2
  · intro hx
    refine ⟨?_, ?_, hx⟩
    · rintro ⟨h3, h33, hc2, hc206, hr⟩
      rcases hx.1 with hlt | hgt <;> linarith
    · rintro ⟨h3, h33, hx2⟩
      rcases hx.1 with hlt | hgt <;> linarith

/-! ## Claim C2 -/

/-- Claim C2: membership in the three outcome buckets is characterized, for
every result key with actual Total HPPD `h`, CNA HPPD `c` and RN+LPN HPPD
`r`, by: Bucket 1 iff `3.0 ≤ h ≤ 3.3 ∧ 2.00 ≤ c ≤ 2.06 ∧ r ≤ 1.2`; Bucket 2
iff `3.0 ≤ h ≤ 3.3 ∧ (c < 2.0 ∨ r > 1.2)`; Bucket 3 iff
`(h < 3.0 ∨ h > 3.3) ∧ (c < 2.0 ∨ r > 1.2)`.  The concrete examples:
`(3.1, 2.03, 1.0)` lands in Bucket 1, `(3.1, 1.9, 1.5)` in Bucket 2,
`(2.5, 1.8, 1.5)` in Bucket 3, and `(2.5, 2.05, 1.0)` in no bucket. -/
theorem claim_C2_buckets :
    (∀ (rs : List (ResKey × ActualVals)), (rs.map Prod.fst).Nodup →
      ∀ (k : ResKey) (v : ActualVals), (k, v) ∈ rs →
        ((k ∈ (categorize_results rs).group1 ↔
            3 ≤ v.totalHppd ∧ v.totalHppd ≤ 33/10 ∧ 2 ≤ v.cnaHppd ∧ v.cnaHppd ≤ 103/50 ∧
              v.rnLpnHppd ≤ 6/5) ∧
          (k ∈ (categorize_results rs).group2 ↔
            3 ≤ v.totalHppd ∧ v.totalHppd ≤ 33/10 ∧ (v.cnaHppd < 2 ∨ 6/5 < v.rnLpnHppd)) ∧
          (k ∈ (categorize_results rs).group3 ↔
            (v.totalHppd < 3 ∨ 33/10 < v.totalHppd) ∧ (v.cnaHppd < 2 ∨ 6/5 < v.rnLpnHppd)))) ∧
    (categorize_results [(("a", (2024, 1, 1)), ⟨31/10, 203/100, 1⟩)]).group1 = [("a", (2024, 1, 1))] ∧
    (categorize_results [(("a", (2024, 1, 1)), ⟨31/10, 19/10, 3/2⟩)]).group2 = [("a", (2024, 1, 1))] ∧
    (categorize_results [(("a", (2024, 1, 1)), ⟨5/2, 9/5, 3/2⟩)]).group3 = [("a", (2024, 1, 1))] ∧
    categorize_results [(("a", (2024, 1, 1)), ⟨5/2, 41/20, 1⟩)] = ⟨[], [], []⟩ := by
  refine ⟨?_,
    by norm_num [categorize_results, categorize_step, bucket1Cond],
    by norm_num [categorize_results, categorize_step, bucket1Cond],
    by norm_num [categorize_results, categorize_step, bucket1Cond],
    by norm_num [categorize_results, categorize_step, bucket1Cond]⟩
  intro rs hnd k v hmem
  refine ⟨?_, ?_, ?_⟩
  · rw [categorize_results, mem_group1_foldl]
    simp only [List.not_mem_nil, false_or]
    constructor
    · rintro ⟨w, hw, hb⟩
      rw [keys_nodup_mem_unique hnd hw hmem] at hb
      exact hb
    · intro hb
      exact ⟨v, hmem, hb⟩
  · rw [categorize_results, mem_group2_foldl]
    simp only [List.not_mem_nil, false_or]
    constructor
    · rintro ⟨w, hw, hb⟩
      rw [keys_nodup_mem_unique hnd hw hmem] at hb
      exact (bucket2Cond_iff _ _ _).mp hb
    · intro hb
      exact ⟨v, hmem, (bucket2Cond_iff _ _ _).mpr hb⟩
  · rw [categorize_results, mem_group3_foldl]
    simp only [List.not_mem_nil, false_or]
    constructor
    · rintro ⟨w, hw, hb⟩
      rw [keys_nodup_mem_unique hnd hw hmem] at hb
      exact (bucket3Cond_iff _ _ _).mp hb
    · intro hb
      exact ⟨v, hmem, (bucket3Cond_iff _ _ _).mpr hb⟩

/-- Witness for claim C2: on the one-facility results list with actual
metrics `(3.1, 2.03, 1.0)` the characterization puts the key in Bucket 1. -/
theorem claim_C2_witness :
    ("a", ((2024 : Nat), (1 : Nat), (1 : Nat))) ∈
      (categorize_results [(("a", (2024, 1, 1)), ⟨31/10, 203/100, 1⟩)]).group1 :=
  ((claim_C2_buckets.1 [(("a", (2024, 1, 1)), ⟨31/10, 203/100, 1⟩)] (by simp)
      ("a", (2024, 1, 1)) ⟨31/10, 203/100, 1⟩ (List.mem_singleton.mpr rfl)).1).mpr
    (by norm_num)

/-! ## Claim C10 -/

/-- Claim C10: the three outcome buckets are pairwise disjoint — no result
key is placed in more than one of the three sections, whatever the actual
HPPD values are. -/
theorem claim_C10_disjoint :
    ∀ (rs : List (ResKey × ActualVals)), (rs.map Prod.fst).Nodup →
      ∀ k : ResKey,
        ¬ (k ∈ (categorize_results rs).group1 ∧ k ∈ (categorize_results rs).group2) ∧
        ¬ (k ∈ (categorize_results rs).group1 ∧ k ∈ (categorize_results rs).group3) ∧
        ¬ (k ∈ (categorize_results rs).group2 ∧ k ∈ (categorize_results rs).group3) := by
  intro rs hnd k
  refine ⟨?_, ?_, ?_⟩ <;> rintro ⟨ha, hb⟩
  · rw [categorize_results, mem_group1_foldl] at ha
    rw [categorize_results, mem_group2_foldl] at hb
    simp only [List.not_mem_nil, false_or] at ha hb
    obtain ⟨v, hv, hbv⟩ := ha
    obtain ⟨w, hw, hbw⟩ := hb
    rw [keys_nodup_mem_unique hnd hw hv] at hbw
    exact hbw.1 hbv
  · rw [categorize_results, mem_group1_foldl] at ha
    rw [categorize_results, mem_group3_foldl] at hb
    simp only [List.not_mem_nil, false_or] at ha hb
    obtain ⟨v, hv, hbv⟩ := ha
    obtain ⟨w, hw, hbw⟩ := hb
    rw [keys_nodup_mem_unique hnd hw hv] at hbw
    exact hbw.1 hbv
  · rw [categorize_results, mem_group2_foldl] at ha
    rw [categorize_results, mem_group3_foldl] at hb
    simp only [List.not_mem_nil, false_or] at ha hb
    obtain ⟨v, hv, hbv⟩ := ha
    obtain ⟨w, hw, hbw⟩ := hb
    rw [keys_nodup_mem_unique hnd hw hv] at hbw
    exact hbw.2.1 hbv.2

/-- Witness for claim C10: disjointness instantiated on a concrete
two-facility results list. -/
theorem claim_C10_witness :
    ¬ (("a", ((2024 : Nat), (1 : Nat), (1 : Nat))) ∈
        (categorize_results
          [(("a", (2024, 1, 1)), ⟨31/10, 203/100, 1⟩),
           (("b", (2024, 1, 1)), ⟨5/2, 9/5, 3/2⟩)]).group1 ∧
       ("a", ((2024 : Nat), (1 : Nat), (1 : Nat))) ∈
        (categorize_results
          [(("a", (2024, 1, 1)), ⟨31/10, 203/100, 1⟩),
           (("b", (2024, 1, 1)), ⟨5/2, 9/5, 3/2⟩)]).group2) :=
  (claim_C10_disjoint
    [(("a", (2024, 1, 1)), ⟨31/10, 203/100, 1⟩), (("b", (2024, 1, 1)), ⟨5/2, 9/5, 3/2⟩)]
    (by simp) ("a", (2024, 1, 1))).1

/-! ## Claim C3 -/

/-- Claim C3: in the Difference row each header column other than Facility,
Type and Date equals `round(projected - actual, 2)` when both sides are
numeric and `None` when either side is not; the Type cell reads "Difference",
the Facility cell is blanked, and the Date cell is copied from the Projected
row — none of the three is differenced. -/
theorem claim_C3_difference_row :
    ∀ (proj act : String → CellVal) (col : String),
      (col ∈ column_headers → col ≠ "Facility" → col ≠ "Type" → col ≠ "Date" →
        ((∀ p a : Rat, proj col = .num p → act col = .num a →
            difference_row proj act col = .num (pyRound2 (p - a))) ∧
          ((isNumericVal (proj col) = false ∨ isNumericVal (act col) = false) →
            difference_row proj act col = .noneV))) ∧
      difference_row proj act "Type" = .strV "Difference" ∧
      difference_row proj act "Facility" = .strV "" ∧
      difference_row proj act "Date" = proj "Date" := by
  intro proj act col
  refine ⟨?_, by simp +decide [difference_row], by simp +decide [difference_row],
    by simp +decide [difference_row]⟩
  intro hmem hF hT hD
  constructor
  · intro p a hp ha
    simp only [difference_row, if_neg hT, if_neg hF, if_neg hD, if_pos hmem]
    rw [hp, ha]
  · intro hnn
    simp only [difference_row, if_neg hT, if_neg hF, if_neg hD, if_pos hmem]
    rcases hnn with hn | hn
    · cases hp : proj col <;> rw [hp] at hn <;> cases ha : act col <;>
        simp [isNumericVal] at hn ⊢
    · cases ha : act col <;> rw [ha] at hn <;> cases hp : proj col <;>
        simp [isNumericVal] at hn ⊢

/-- Witness for claim C3: on concrete rows where the Projected value of
"Total HPPD" is 3.15 and the Actual value is 3.0, the Difference cell is
0.15, and the "Notes" column (string-valued) is `None`. -/
theorem claim_C3_witness :
    difference_row (fun c => if c = "Total HPPD" then .num (63/20) else .strV "x")
        (fun c => if c = "Total HPPD" then .num 3 else .strV "y") "Total HPPD" =
      .num (pyRound2 (63/20 - 3)) ∧
    difference_row (fun c => if c = "Total HPPD" then .num (63/20) else .strV "x")
        (fun c => if c = "Total HPPD" then .num 3 else .strV "y") "Notes" = .noneV := by
  constructor
  · exact ((claim_C3_difference_row
      (fun c => if c = "Total HPPD" then .num (63/20) else .strV "x")
      (fun c => if c = "Total HPPD" then .num 3 else .strV "y") "Total HPPD").1
      (by decide) (by decide) (by decide) (by decide)).1 (63/20) 3 (by simp) (by simp)
  · exact ((claim_C3_difference_row
      (fun c => if c = "Total HPPD" then .num (63/20) else .strV "x")
      (fun c => if c = "Total HPPD" then .num 3 else .strV "y") "Notes").1
      (by decide) (by decide) (by decide) (by decide)).2
      (Or.inl (by simp +decide [isNumericVal]))

/-! ## Claim C4 -/

/-- Claim C4 counterexample: the matcher has no empty-core early-out.  The
raw name "###" normalizes to the empty core, and when the empty string is a
key of the name map (producible from a template facility name made of
punctuation only) the exact lookup succeeds and the matcher returns its
value, where the claim's step (1) asserts no match. -/
theorem claim_C4_counterexample :
    extract_core_from_report "###" = "" ∧
    match_report_to_template (fun _ _ _ => none) "###" [("", "Facility X")] (6/10) =
      some "Facility X" := by
  constructor
  · decide
  · rfl

/-- Claim C4 (amended): the matcher tries, in order with the first hit
winning: exact lookup of the extracted core (even an empty core) in the name
map; fuzzy best match at the given cutoff (0.6 at the call site); fuzzy best
match at the relaxed cutoff 0.3; otherwise `None`.  In particular an exact
hit is returned no matter what the fuzzy matcher would say. -/
theorem claim_C4_matcher :
    ∀ (fuzzy : String → List String → Rat → Option String) (rn : String)
      (m : List (String × String)) (cutoff : Rat),
      (∀ v, dictGet m (extract_core_from_report rn) = some v →
        match_report_to_template fuzzy rn m cutoff = some v) ∧
      (dictGet m (extract_core_from_report rn) = none →
        ∀ k, fuzzy (extract_core_from_report rn) (dictKeys m) cutoff = some k →
          match_report_to_template fuzzy rn m cutoff = dictGet m k) ∧
      (dictGet m (extract_core_from_report rn) = none →
        fuzzy (extract_core_from_report rn) (dictKeys m) cutoff = none →
        ∀ k, fuzzy (extract_core_from_report rn) (dictKeys m) (3/10) = some k →
          match_report_to_template fuzzy rn m cutoff = dictGet m k) ∧
      (dictGet m (extract_core_from_report rn) = none →
        fuzzy (extract_core_from_report rn) (dictKeys m) cutoff = none →
        fuzzy (extract_core_from_report rn) (dictKeys m) (3/10) = none →
        match_report_to_template fuzzy rn m cutoff = none) := by
  intro fuzzy rn m cutoff
  refine ⟨?_, ?_, ?_, ?_⟩
  · intro v hv
    simp [match_report_to_template, hv]
  · intro h0 k hk
    simp [match_report_to_template, h0, hk]
  · intro h0 h1 k hk
    simp [match_report_to_template, h0, h1, hk]
  · intro h0 h1 h2
    simp [match_report_to_template, h0, h1, h2]

/-- Witness for claim C4: with a fuzzy matcher that always proposes a
candidate, the exact hit for core "oak hill" still wins. -/
theorem claim_C4_witness :
    match_report_to_template (fun _ _ _ => some "other") "Oak Hill"
      [("oak hill", "Oak Hill SNF"), ("other", "Other SNF")] (6/10) = some "Oak Hill SNF" :=
  (claim_C4_matcher (fun _ _ _ => some "other") "Oak Hill"
    [("oak hill", "Oak Hill SNF"), ("other", "Other SNF")] (6/10)).1 "Oak Hill SNF" (by decide)

/-! ## Claims C5 and C8 -/

/-- Claim C5: template extraction rejects any file whose census cell, after
safe numeric coercion, is not strictly positive — no entry and a skip record
are produced — and every template entry that is produced has a strictly
positive census equal to that coercion (so the HPPD divisions divide by a
positive number). -/
theorem claim_C5_census_guard :
    ∀ (o : PyOracle) (filename : String) (sheetnames : List String)
      (cells : TemplateCells) (target_date : String),
      (safe_float_conversion o cells.e27 0 ≤ 0 →
        (process_template_file o filename sheetnames cells target_date).1 = none ∧
        (process_template_file o filename sheetnames cells target_date).2.isSome = true) ∧
      (∀ e, (process_template_file o filename sheetnames cells target_date).1 = some e →
        0 < e.census ∧ e.census = safe_float_conversion o cells.e27 0) := by
  intro o fn sh cells td
  constructor
  · intro hc
    simp only [process_template_file]
    repeat' split
    all_goals exact ⟨rfl, rfl⟩
  · intro e he
    simp only [process_template_file] at he
    repeat' split at he
    all_goals simp only [reduceCtorEq] at he
    all_goals
      injection he with he2
      subst he2
      exact ⟨not_le.mp (by assumption), rfl⟩

/-- Witness for claim C5: on cells whose census cell holds 0, no entry is
produced and a skip record is. -/
theorem claim_C5_witness :
    (process_template_file oracle0 "t.xlsx" ["5"] cells5 "2024-01-05").1 = none ∧
    (process_template_file oracle0 "t.xlsx" ["5"] cells5 "2024-01-05").2.isSome = true :=
  (claim_C5_census_guard oracle0 "t.xlsx" ["5"] cells5 "2024-01-05").1
    (by norm_num [safe_float_conversion, cells5, cells8])

/-- Claim C8: every template entry produced by the template extractor
satisfies `proj_total = proj_cna + proj_nurse` exactly, with
`proj_cna = cnaHours / census` and `proj_nurse = (nurseHoursA + nurseHoursB)
/ census`. -/
theorem claim_C8_projected_sum :
    ∀ (o : PyOracle) (filename : String) (sheetnames : List String)
      (cells : TemplateCells) (target_date : String) (e : TemplateEntry),
      (process_template_file o filename sheetnames cells target_date).1 = some e →
        e.proj_total = e.proj_cna + e.proj_nurse ∧
        e.proj_cna = safe_float_conversion o cells.g58 0 / e.census ∧
        e.proj_nurse =
          (safe_float_conversion o cells.e58 0 + safe_float_conversion o cells.f58 0) / e.census := by
  intro o fn sh cells td e he
  simp only [process_template_file] at he
  repeat' split at he
  all_goals simp only [reduceCtorEq] at he
  all_goals
    injection he with he2
    subst he2
    exact ⟨rfl, rfl, rfl⟩

/-- Witness for claim C8: the concrete valid template cells produce an entry
with census 100, CNA HPPD 2.1, nurse HPPD 1.05 and total HPPD 3.15, and the
projected-sum identity holds on it. -/
theorem claim_C8_witness :
    ({ facility := "Oak Hill", cleaned_name := "oak hill", date := (2024, 1, 5), note := ""
       census := 100, proj_total := 63/20, proj_cna := 21/10, proj_nurse := 21/20
       proj_agency_total := 0, proj_agency_cna := 0, proj_agency_nurse := 0 }
        : TemplateEntry).proj_total =
      ({ facility := "Oak Hill", cleaned_name := "oak hill", date := (2024, 1, 5), note := ""
         census := 100, proj_total := 63/20, proj_cna := 21/10, proj_nurse := 21/20
         proj_agency_total := 0, proj_agency_cna := 0, proj_agency_nurse := 0 }
          : TemplateEntry).proj_cna +
        ({ facility := "Oak Hill", cleaned_name := "oak hill", date := (2024, 1, 5), note := ""
           census := 100, proj_total := 63/20, proj_cna := 21/10, proj_nurse := 21/20
           proj_agency_total := 0, proj_agency_cna := 0, proj_agency_nurse := 0 }
            : TemplateEntry).proj_nurse :=
  (claim_C8_projected_sum oracle0 "t.xlsx" ["5"] cells8 "2024-01-05" _
    (by simp +decide [process_template_file, oracle0, cells8, safe_float_conversion, pyStrCell,
      parseDateCell, CellVal.truthy, is_valid_file, remapCleanedFacility]
        <;> norm_num)).1

/-! ## Claim C6 -/

/-- Claim C6 counterexample: on a sheet whose only scanned row carries
department code 3225 with -1 hours the scanned role hours sum to -1, which
is nonzero, yet the extractor does not use the scanned values: it falls back
to the fixed-coordinate reads (all zero here), because the source gates the
scan on a strictly positive sum, not a nonzero one. -/
theorem claim_C6_counterexample :
    (extract_hours_by_dept_code oracle0 ws6).rn + (extract_hours_by_dept_code oracle0 ws6).lpn +
        (extract_hours_by_dept_code oracle0 ws6).cna ≠ 0 ∧
    select_report_hours oracle0 ws6 = old_method_hours oracle0 ws6 ∧
    select_report_hours oracle0 ws6 ≠
      ((extract_hours_by_dept_code oracle0 ws6).total, (extract_hours_by_dept_code oracle0 ws6).cna,
        (extract_hours_by_dept_code oracle0 ws6).rn, (extract_hours_by_dept_code oracle0 ws6).lpn) := by
  have hscan : extract_hours_by_dept_code oracle0 ws6 = ⟨0, 0, -1, -1⟩ := by
    simp +decide [extract_hours_by_dept_code, scanRow, applyCode, applyTotal, cellAt, ws6,
      safe_float_conversion, oracle0, pyStrCell, CellVal.truthy, List.range']
  have hold : old_method_hours oracle0 ws6 = (0, 0, 0, 0) := by
    simp +decide [old_method_hours, cellAt, ws6]
  have hsel : select_report_hours oracle0 ws6 = (0, 0, 0, 0) := by
    rw [select_report_hours, hscan, hold]
    norm_num
  rw [hscan, hsel, hold]
  norm_num [Prod.ext_iff]

/-- Claim C6 (amended): the extractor uses the scanned department-code values
`(total, cna, rn, lpn)` exactly when the scanned role hours sum to a strictly
positive value; whenever that sum is zero or negative it uses the
fixed-coordinate cell reads instead. -/
theorem claim_C6_hours_fallback :
    ∀ (o : PyOracle) (ws : XlsSheet),
      (0 < (extract_hours_by_dept_code o ws).rn + (extract_hours_by_dept_code o ws).lpn +
          (extract_hours_by_dept_code o ws).cna →
        select_report_hours o ws =
          ((extract_hours_by_dept_code o ws).total, (extract_hours_by_dept_code o ws).cna,
            (extract_hours_by_dept_code o ws).rn, (extract_hours_by_dept_code o ws).lpn)) ∧
      ((extract_hours_by_dept_code o ws).rn + (extract_hours_by_dept_code o ws).lpn +
          (extract_hours_by_dept_code o ws).cna ≤ 0 →
        select_report_hours o ws = old_method_hours o ws) := by
  intro o ws
  constructor
  · intro h
    rw [select_report_hours, if_pos h]
  · intro h
    rw [select_report_hours, if_neg (not_lt.mpr h)]

/-- Witness for claim C6: on the 13-row sheet the scanned hours sum to 14 > 0
and the scanned values are selected. -/
theorem claim_C6_witness :
    select_report_hours oracle0 ws9 =
      ((extract_hours_by_dept_code oracle0 ws9).total, (extract_hours_by_dept_code oracle0 ws9).cna,
        (extract_hours_by_dept_code oracle0 ws9).rn, (extract_hours_by_dept_code oracle0 ws9).lpn) :=
  (claim_C6_hours_fallback oracle0 ws9).1
    (by
      have hscan : extract_hours_by_dept_code oracle0 ws9 = ⟨7, 3, 4, 14⟩ := by
        simp +decide [extract_hours_by_dept_code, scanRow, applyCode, applyTotal, cellAt, ws9,
          safe_float_conversion, oracle0, pyStrCell, CellVal.truthy, List.range']
        norm_num
      rw [hscan]
      norm_num)

/-! ## Claim C7 -/

theorem pyRound2_zero : pyRound2 0 = 0 := by
  norm_num [pyRound2, roundHalfEven, Rat.floor]

/-- Claim C7: each agency percentage is `agencyRoleHours / actualRoleHours ×
100` (rounded to two decimals) whenever the corresponding actual role hours
are strictly positive, and 0.0 whenever they are not — the division-by-zero
branch is never taken.  This holds for the CNA, nurse (RN+LPN) and total
percentages. -/
theorem claim_C7_agency_guard :
    ∀ (ad : AgencyData) (c r l : Rat),
      ((c ≤ 0 → (compute_agency_percentages ad c r l).actual_agency_cna_pct = 0) ∧
        (0 < c → (compute_agency_percentages ad c r l).actual_agency_cna_pct =
          pyRound2 (ad.agency_cna_hours / c * 100))) ∧
      ((r + l ≤ 0 → (compute_agency_percentages ad c r l).actual_agency_nurse_pct = 0) ∧
        (0 < r + l → (compute_agency_percentages ad c r l).actual_agency_nurse_pct =
          pyRound2 (ad.agency_rnlpn_hours / (r + l) * 100))) ∧
      ((c + (r + l) ≤ 0 → (compute_agency_percentages ad c r l).actual_agency_total_pct = 0) ∧
        (0 < c + (r + l) → (compute_agency_percentages ad c r l).actual_agency_total_pct =
          pyRound2 (ad.agency_total_hours / (c + (r + l)) * 100))) := by
  intro ad c r l
  refine ⟨⟨?_, ?_⟩, ⟨?_, ?_⟩, ⟨?_, ?_⟩⟩
  · intro h
    simp only [compute_agency_percentages, if_neg (not_lt.mpr h), pyRound2_zero]
  · intro h
    simp only [compute_agency_percentages, if_pos h]
  · intro h
    simp only [compute_agency_percentages, if_neg (not_lt.mpr h), pyRound2_zero]
  · intro h
    simp only [compute_agency_percentages, if_pos h]
  · intro h
    simp only [compute_agency_percentages, if_neg (not_lt.mpr h), pyRound2_zero]
  · intro h
    simp only [compute_agency_percentages, if_pos h]

/-- Witness for claim C7: with 10 agency CNA hours out of 40 actual CNA
hours the CNA percentage is 25, and with zero actual nurse hours the nurse
percentage is 0. -/
theorem claim_C7_witness :
    (compute_agency_percentages ⟨10, 0, 10⟩ 40 0 0).actual_agency_cna_pct =
      pyRound2 (10 / 40 * 100) ∧
    (compute_agency_percentages ⟨10, 0, 10⟩ 40 0 0).actual_agency_nurse_pct = 0 :=
  ⟨(claim_C7_agency_guard ⟨10, 0, 10⟩ 40 0 0).1.2 (by norm_num),
   (claim_C7_agency_guard ⟨10, 0, 10⟩ 40 0 0).2.1.1 (by norm_num)⟩

/-! ## Claim C9 helper lemmas -/

theorem applyTotal_rn (o : PyOracle) (c hc : CellVal) (st : HoursState) :
    (applyTotal o c hc st).rn = st.rn := by
  unfold applyTotal
  split <;> rfl

theorem applyTotal_lpn (o : PyOracle) (c hc : CellVal) (st : HoursState) :
    (applyTotal o c hc st).lpn = st.lpn := by
  unfold applyTotal
  split <;> rfl

theorem applyTotal_cna (o : PyOracle) (c hc : CellVal) (st : HoursState) :
    (applyTotal o c hc st).cna = st.cna := by
  unfold applyTotal
  split <;> rfl

theorem applyCode_total (o : PyOracle) (c hc : CellVal) (st : HoursState) :
    (applyCode o c hc st).total = st.total := by
  unfold applyCode
  repeat' split
  all_goals rfl

theorem applyCode_rn_of_ne (o : PyOracle) (c hc : CellVal) (st : HoursState)
    (h : pyStrip (pyStrCell o c) ≠ "3210") : (applyCode o c hc st).rn = st.rn := by
  unfold applyCode
  rw [if_neg h]
  repeat' split
  all_goals rfl

theorem applyCode_lpn_of_ne (o : PyOracle) (c hc : CellVal) (st : HoursState)
    (h : pyStrip (pyStrCell o c) ≠ "3215") : (applyCode o c hc st).lpn = st.lpn := by
  unfold applyCode
  repeat' split
  all_goals rfl

theorem applyCode_cna_of_ne (o : PyOracle) (c hc : CellVal) (st : HoursState)
    (h : pyStrip (pyStrCell o c) ≠ "3225") : (applyCode o c hc st).cna = st.cna := by
  unfold applyCode
  repeat' split
  all_goals rfl

theorem applyCode_rn_of_eq (o : PyOracle) (c hc : CellVal) (st : HoursState)
    (h : pyStrip (pyStrCell o c) = "3210") :
    (applyCode o c hc st).rn = safe_float_conversion o hc 0 := by
  unfold applyCode
  rw [if_pos h]

theorem applyCode_lpn_of_eq (o : PyOracle) (c hc : CellVal) (st : HoursState)
    (h : pyStrip (pyStrCell o c) = "3215") :
    (applyCode o c hc st).lpn = safe_float_conversion o hc 0 := by
  unfold applyCode
  rw [if_neg (by rw [h]; decide), if_pos h]

theorem applyCode_cna_of_eq (o : PyOracle) (c hc : CellVal) (st : HoursState)
    (h : pyStrip (pyStrCell o c) = "3225") :
    (applyCode o c hc st).cna = safe_float_conversion o hc 0 := by
  unfold applyCode
  rw [if_neg (by rw [h]; decide), if_neg (by rw [h]; decide), if_pos h]

theorem scanRow_rn_preserved (o : PyOracle) (ws : XlsSheet) (row : Nat)
    (h : rowSetsCode o ws row "3210" = false) (st : HoursState) :
    (scanRow o ws st row).rn = st.rn := by
  unfold rowSetsCode at h
  unfold scanRow
  cases hcell : cellAt ws row 2 with
  | none => rfl
  | some c =>
    rw [hcell] at h
    dsimp only
    by_cases ht : c.truthy
    · rw [if_pos ht]
      cases hh : cellAt ws row 7 with
      | none => rfl
      | some hcv =>
        rw [hh] at h
        simp only [ht, Option.isSome_some, Bool.and_true, Bool.true_and, beq_eq_false_iff_ne,
          ne_eq] at h
        rw [applyTotal_rn, applyCode_rn_of_ne o c hcv st h]
    · rw [if_neg ht]

theorem scanRow_lpn_preserved (o : PyOracle) (ws : XlsSheet) (row : Nat)
    (h : rowSetsCode o ws row "3215" = false) (st : HoursState) :
    (scanRow o ws st row).lpn = st.lpn := by
  unfold rowSetsCode at h
  unfold scanRow
  cases hcell : cellAt ws row 2 with
  | none => rfl
  | some c =>
    rw [hcell] at h
    dsimp only
    by_cases ht : c.truthy
    · rw [if_pos ht]
      cases hh : cellAt ws row 7 with
      | none => rfl
      | some hcv =>
        rw [hh] at h
        simp only [ht, Option.isSome_some, Bool.and_true, Bool.true_and, beq_eq_false_iff_ne,
          ne_eq] at h
        rw [applyTotal_lpn, applyCode_lpn_of_ne o c hcv st h]
    · rw [if_neg ht]

theorem scanRow_cna_preserved (o : PyOracle) (ws : XlsSheet) (row : Nat)
    (h : rowSetsCode o ws row "3225" = false) (st : HoursState) :
    (scanRow o ws st row).cna = st.cna := by
  unfold rowSetsCode at h
  unfold scanRow
  cases hcell : cellAt ws row 2 with
  | none => rfl
  | some c =>
    rw [hcell] at h
    dsimp only
    by_cases ht : c.truthy
    · rw [if_pos ht]
      cases hh : cellAt ws row 7 with
      | none => rfl
      | some hcv =>
        rw [hh] at h
        simp only [ht, Option.isSome_some, Bool.and_true, Bool.true_and, beq_eq_false_iff_ne,
          ne_eq] at h
        rw [applyTotal_cna, applyCode_cna_of_ne o c hcv st h]
    · rw [if_neg ht]

theorem scanRow_total_preserved (o : PyOracle) (ws : XlsSheet) (row : Nat)
    (h : rowIsTotal o ws row = false) (st : HoursState) :
    (scanRow o ws st row).total = st.total := by
  unfold rowIsTotal at h
  unfold scanRow
  cases hcell : cellAt ws row 2 with
  | none => rfl
  | some c =>
    rw [hcell] at h
    dsimp only
    by_cases ht : c.truthy
    · rw [if_pos ht]
      cases hh : cellAt ws row 7 with
      | none => rfl
      | some hcv =>
        rw [hh] at h
        simp only [ht, Option.isSome_some, Bool.and_true, Bool.true_and] at h
        dsimp only
        unfold applyTotal
        rw [if_neg (by rw [h]; decide), applyCode_total]
    · rw [if_neg ht]

theorem scanRow_rn_set (o : PyOracle) (ws : XlsSheet) (row : Nat)
    (h : rowSetsCode o ws row "3210" = true) (st : HoursState) :
    (scanRow o ws st row).rn = rowHours o ws row := by
  unfold rowSetsCode at h
  unfold scanRow rowHours
  cases hcell : cellAt ws row 2 with
  | none => rw [hcell] at h; cases h
  | some c =>
    rw [hcell] at h
    dsimp only
    cases hh : cellAt ws row 7 with
    | none => rw [hh] at h; simp at h
    | some hcv =>
      rw [hh] at h
      dsimp only
      simp only [hh, Option.isSome_some, Bool.and_true, Bool.and_eq_true, beq_iff_eq] at h
      rw [if_pos h.1, applyTotal_rn, applyCode_rn_of_eq o c hcv st h.2]

theorem scanRow_lpn_set (o : PyOracle) (ws : XlsSheet) (row : Nat)
    (h : rowSetsCode o ws row "3215" = true) (st : HoursState) :
    (scanRow o ws st row).lpn = rowHours o ws row := by
  unfold rowSetsCode at h
  unfold scanRow rowHours
  cases hcell : cellAt ws row 2 with
  | none => rw [hcell] at h; cases h
  | some c =>
    rw [hcell] at h
    dsimp only
    cases hh : cellAt ws row 7 with
    | none => rw [hh] at h; simp at h
    | some hcv =>
      rw [hh] at h
      dsimp only
      simp only [hh, Option.isSome_some, Bool.and_true, Bool.and_eq_true, beq_iff_eq] at h
      rw [if_pos h.1, applyTotal_lpn, applyCode_lpn_of_eq o c hcv st h.2]

theorem scanRow_cna_set (o : PyOracle) (ws : XlsSheet) (row : Nat)
    (h : rowSetsCode o ws row "3225" = true) (st : HoursState) :
    (scanRow o ws st row).cna = rowHours o ws row := by
  unfold rowSetsCode at h
  unfold scanRow rowHours
  cases hcell : cellAt ws row 2 with
  | none => rw [hcell] at h; cases h
  | some c =>
    rw [hcell] at h
    dsimp only
    cases hh : cellAt ws row 7 with
    | none => rw [hh] at h; simp at h
    | some hcv =>
      rw [hh] at h
      dsimp only
      simp only [hh, Option.isSome_some, Bool.and_true, Bool.and_eq_true, beq_iff_eq] at h
      rw [if_pos h.1, applyTotal_cna, applyCode_cna_of_eq o c hcv st h.2]

theorem foldl_rn_preserved (o : PyOracle) (ws : XlsSheet) (rows : List Nat) :
    (∀ r ∈ rows, rowSetsCode o ws r "3210" = false) → ∀ st : HoursState,
      (rows.foldl (scanRow o ws) st).rn = st.rn := by
  induction rows with
  | nil => intro _ st; rfl
  | cons a t ih =>
    intro h st
    rw [List.foldl_cons, ih (fun r hr => h r (List.mem_cons_of_mem a hr)) (scanRow o ws st a)]
    exact scanRow_rn_preserved o ws a (h a (List.mem_cons_self a t)) st

theorem foldl_lpn_preserved (o : PyOracle) (ws : XlsSheet) (rows : List Nat) :
    (∀ r ∈ rows, rowSetsCode o ws r "3215" = false) → ∀ st : HoursState,
      (rows.foldl (scanRow o ws) st).lpn = st.lpn := by
  induction rows with
  | nil => intro _ st; rfl
  | cons a t ih =>
    intro h st
    rw [List.foldl_cons, ih (fun r hr => h r (List.mem_cons_of_mem a hr)) (scanRow o ws st a)]
    exact scanRow_lpn_preserved o ws a (h a (List.mem_cons_self a t)) st

theorem foldl_cna_preserved (o : PyOracle) (ws : XlsSheet) (rows : List Nat) :
    (∀ r ∈ rows, rowSetsCode o ws r "3225" = false) → ∀ st : HoursState,
      (rows.foldl (scanRow o ws) st).cna = st.cna := by
  induction rows with
  | nil => intro _ st; rfl
  | cons a t ih =>
    intro h st
    rw [List.foldl_cons, ih (fun r hr => h r (List.mem_cons_of_mem a hr)) (scanRow o ws st a)]
    exact scanRow_cna_preserved o ws a (h a (List.mem_cons_self a t)) st

theorem foldl_total_preserved (o : PyOracle) (ws : XlsSheet) (rows : List Nat) :
    (∀ r ∈ rows, rowIsTotal o ws r = false) → ∀ st : HoursState,
      (rows.foldl (scanRow o ws) st).total = st.total := by
  induction rows with
  | nil => intro _ st; rfl
  | cons a t ih =>
    intro h st
    rw [List.foldl_cons, ih (fun r hr => h r (List.mem_cons_of_mem a hr)) (scanRow o ws st a)]
    exact scanRow_total_preserved o ws a (h a (List.mem_cons_self a t)) st

theorem extract_post_rn (st : HoursState) :
    (if st.total = 0 then { st with total := st.rn + st.lpn + st.cna } else st).rn = st.rn := by
  split <;> rfl

theorem extract_post_lpn (st : HoursState) :
    (if st.total = 0 then { st with total := st.rn + st.lpn + st.cna } else st).lpn = st.lpn := by
  split <;> rfl

theorem extract_post_cna (st : HoursState) :
    (if st.total = 0 then { st with total := st.rn + st.lpn + st.cna } else st).cna = st.cna := by
  split <;> rfl

theorem scan_range_split (o : PyOracle) (ws : XlsSheet) (j : Nat) (h9 : 9 ≤ j)
    (hj : j < ws.nrows) :
    List.range' 9 (ws.nrows - 9) =
      List.range' 9 (j - 9) ++ j :: List.range' (j + 1) (ws.nrows - j - 1) := by
  have h1 := List.range'_append_1 9 (j - 9) (ws.nrows - j)
  have h2 : 9 + (j - 9) = j := by omega
  have h3 : ws.nrows - j + (j - 9) = ws.nrows - 9 := by omega
  rw [h2, h3] at h1
  rw [← h1]
  congr 1
  have h4 : ws.nrows - j = ws.nrows - j - 1 + 1 := by omega
  generalize hm : ws.nrows - j - 1 = m
  rw [hm] at h4
  rw [h4, List.range'_succ]

/-! ## Claim C9 -/

/-- Claim C9: in the department-code scan, the hours of the last row carrying
a given department code (3210 for RN, 3215 for LPN, 3225 for CNA) overwrite
any earlier rows with the same code — the returned role hours equal exactly
that last row's hours, whatever the earlier rows held; and when no row is
recognized as a grand-total row the returned total equals the sum of the
scanned RN, LPN and CNA hours. -/
theorem claim_C9_scan :
    ∀ (o : PyOracle) (ws : XlsSheet),
      (∀ j, 9 ≤ j → j < ws.nrows → rowSetsCode o ws j "3210" = true →
        (∀ k, k < ws.nrows → j < k → rowSetsCode o ws k "3210" = false) →
        (extract_hours_by_dept_code o ws).rn = rowHours o ws j) ∧
      (∀ j, 9 ≤ j → j < ws.nrows → rowSetsCode o ws j "3215" = true →
        (∀ k, k < ws.nrows → j < k → rowSetsCode o ws k "3215" = false) →
        (extract_hours_by_dept_code o ws).lpn = rowHours o ws j) ∧
      (∀ j, 9 ≤ j → j < ws.nrows → rowSetsCode o ws j "3225" = true →
        (∀ k, k < ws.nrows → j < k → rowSetsCode o ws k "3225" = false) →
        (extract_hours_by_dept_code o ws).cna = rowHours o ws j) ∧
      ((∀ k, 9 ≤ k → k < ws.nrows → rowIsTotal o ws k = false) →
        (extract_hours_by_dept_code o ws).total =
          (extract_hours_by_dept_code o ws).rn + (extract_hours_by_dept_code o ws).lpn +
            (extract_hours_by_dept_code o ws).cna) := by
  intro o ws
  refine ⟨?_, ?_, ?_, ?_⟩
  · intro j h9 hj hset hlast
    have hpres : ∀ r ∈ List.range' (j + 1) (ws.nrows - j - 1), rowSetsCode o ws r "3210" = false := by
      intro r hr
      rw [List.mem_range'_1] at hr
      exact hlast r (by omega) (by omega)
    simp only [extract_hours_by_dept_code]
    rw [scan_range_split o ws j h9 hj, List.foldl_append, List.foldl_cons, extract_post_rn,
      foldl_rn_preserved o ws _ hpres, scanRow_rn_set o ws j hset]
  · intro j h9 hj hset hlast
    have hpres : ∀ r ∈ List.range' (j + 1) (ws.nrows - j - 1), rowSetsCode o ws r "3215" = false := by
      intro r hr
      rw [List.mem_range'_1] at hr
      exact hlast r (by omega) (by omega)
    simp only [extract_hours_by_dept_code]
    rw [scan_range_split o ws j h9 hj, List.foldl_append, List.foldl_cons, extract_post_lpn,
      foldl_lpn_preserved o ws _ hpres, scanRow_lpn_set o ws j hset]
  · intro j h9 hj hset hlast
    have hpres : ∀ r ∈ List.range' (j + 1) (ws.nrows - j - 1), rowSetsCode o ws r "3225" = false := by
      intro r hr
      rw [List.mem_range'_1] at hr
      exact hlast r (by omega) (by omega)
    simp only [extract_hours_by_dept_code]
    rw [scan_range_split o ws j h9 hj, List.foldl_append, List.foldl_cons, extract_post_cna,
      foldl_cna_preserved o ws _ hpres, scanRow_cna_set o ws j hset]
  · intro hnot
    have hpres : ∀ r ∈ List.range' 9 (ws.nrows - 9), rowIsTotal o ws r = false := by
      intro r hr
      rw [List.mem_range'_1] at hr
      exact hnot r hr.1 (by omega)
    simp only [extract_hours_by_dept_code]
    rw [foldl_total_preserved o ws _ hpres, if_pos rfl]

/-- Witness for claim C9: on the concrete sheet with 3210 rows at indices 9
and 10, a 3215 row at 11, a 3225 row at 12 and no total row, the returned RN
hours equal row 10's hours (the later of the two 3210 rows), the LPN and CNA
hours equal rows 11's and 12's, and the total is the role-hours sum. -/
theorem claim_C9_witness :
    (extract_hours_by_dept_code oracle0 ws9).rn = rowHours oracle0 ws9 10 ∧
    (extract_hours_by_dept_code oracle0 ws9).lpn = rowHours oracle0 ws9 11 ∧
    (extract_hours_by_dept_code oracle0 ws9).cna = rowHours oracle0 ws9 12 ∧
    (extract_hours_by_dept_code oracle0 ws9).total =
      (extract_hours_by_dept_code oracle0 ws9).rn + (extract_hours_by_dept_code oracle0 ws9).lpn +
        (extract_hours_by_dept_code oracle0 ws9).cna :=
  ⟨(claim_C9_scan oracle0 ws9).1 10 (by decide) (by decide) (by decide) (by decide),
   (claim_C9_scan oracle0 ws9).2.1 11 (by decide) (by decide) (by decide) (by decide),
   (claim_C9_scan oracle0 ws9).2.2.1 12 (by decide) (by decide) (by decide) (by decide),
   (claim_C9_scan oracle0 ws9).2.2.2 (by decide)⟩

/-- Witness for claim C1: the prefix-stripping part instantiated on the
concrete name "Oak Hill". -/
theorem claim_C1_witness :
    extract_core_from_report ("Total Nursing Wrkd - " ++ "Oak Hill") =
      extract_core_from_report "Oak Hill" :=
  claim_C1_extract_core.1 "Oak Hill" (by decide) (by decide)
